import Mathlib

/-!
Verification development for the VispioAi image-captioning application.

The definitions below are shallow embeddings of the Python source:
  * `src/utils/image_utils.py`   — `validate_image`, `resize_image`,
    `optimize_image_for_api`
  * `src/services/gemini_service.py` — `generate_caption` (style prompt
    selection and response handling), `analyze_image_content`
  * `src/services/chatbot_service.py` — `chat_with_image` context building,
    `get_suggested_questions`
  * `src/services/audio_service.py` — `text_to_speech` input guard
  * `src/app.py` — chat send handler (history management and keyword routing)

External effects (the Gemini transport, the JPEG encoder, the gTTS engine)
are passed in as explicit function parameters; machine floats of the Python
code are modelled over `ℚ` with `int` truncation as `Nat.floor`.
-/

/-- A PIL image as far as this code observes it: dimensions, colour mode,
and whether its pixel data decodes (`image.load()` succeeds). -/
structure PImage where
  width : Nat
  height : Nat
  mode : String
  loadOk : Bool
deriving DecidableEq

/-- The mode whitelist of `validate_image` (`image_utils.py` line 39). -/
def valid_modes : List String := ["RGB", "RGBA", "L", "P", "1"]

/-- Embedding of `validate_image` (`image_utils.py` lines 11–55).
`none` stands for a `None` image object; a `loadOk = false` image is one
whose `image.load()` raises. -/
def validate_image : Option PImage → Bool
  | none => false
  | some image =>
    if image.width < 10 || image.height < 10 then false
    else if 100000000 < image.width * image.height then false
    else if !(valid_modes.contains image.mode) then false
    else if !image.loadOk then false
    else true

/-- The scaling factor computed by `resize_image` (`image_utils.py`
lines 85–88): `min(max_width/original_width, max_height/original_height, 1.0)`,
over `ℚ` in place of Python floats. -/
def scale_factor (dims maxSize : Nat × Nat) : ℚ :=
  min (min ((maxSize.1 : ℚ) / (dims.1 : ℚ)) ((maxSize.2 : ℚ) / (dims.2 : ℚ))) 1

/-- The dimensions produced by `resize_image` (`image_utils.py` lines 81–98):
when the scale factor is below one, each dimension is multiplied by it and
truncated by `int(...)`; otherwise the dimensions are unchanged. -/
def resizeDims (dims maxSize : Nat × Nat) : Nat × Nat :=
  let sf := scale_factor dims maxSize
  if sf < 1 then (⌊(dims.1 : ℚ) * sf⌋₊, ⌊(dims.2 : ℚ) * sf⌋₊) else dims

/-- The mode-normalisation step of `resize_image` (`image_utils.py`
lines 69–79): `RGBA` and `P` images are pasted onto a white `RGB`
background, any other non-`RGB` mode goes through `convert('RGB')`. -/
inductive ModeConv where
  | whiteBackground
  | convertRGB
  | keep
deriving DecidableEq

/-- Which conversion branch of `resize_image` an input mode takes. -/
def modeConversion (mode : String) : ModeConv :=
  if mode = "RGBA" || mode = "P" then .whiteBackground
  else if mode ≠ "RGB" then .convertRGB
  else .keep

/-- The colour mode after the conversion step: the white background is an
`RGB` image, and `convert('RGB')` yields `RGB`. -/
def applyModeConversion (mode : String) : String :=
  match modeConversion mode with
  | .whiteBackground => "RGB"
  | .convertRGB => "RGB"
  | .keep => mode

/-- Embedding of `resize_image` (`image_utils.py` lines 57–98) on its
non-error path: normalise the colour mode, then downscale if either
dimension exceeds the bound. -/
def resize_image (image : PImage) (maxSize : Nat × Nat) : PImage :=
  let d := resizeDims (image.width, image.height) maxSize
  { width := d.1, height := d.2, mode := applyModeConversion image.mode, loadOk := image.loadOk }

/-- The quality values tried by the `while quality >= 20` loop of
`optimize_image_for_api` (`image_utils.py` lines 119–133), starting from a
given quality and stepping down by 10. -/
def qualitySteps (q : Nat) : List Nat :=
  if 20 ≤ q then q :: qualitySteps (q - 10) else []
termination_by q
decreasing_by omega

/-- The encoding loop of `optimize_image_for_api` (`image_utils.py`
lines 121–133): at each quality the image is encoded to JPEG bytes
(`enc q`), returned as soon as the byte length is within the budget;
`none` when the loop exhausts the qualities. -/
def optimizeLoop (enc : Nat → List UInt8) (budget : Nat) (q : Nat) : Option (List UInt8) :=
  if 20 ≤ q then
    if (enc q).length ≤ budget then some (enc q)
    else optimizeLoop enc budget (q - 10)
  else none
termination_by q
decreasing_by omega

/-- Embedding of `optimize_image_for_api` (`image_utils.py` lines 104–149).
`enc dims q` is the JPEG encoding of the image at dimensions `dims` and
quality `q` (the external PIL encoder). The loop starts at quality 95; if
no quality from 95 down to 25 fits the budget, the image is resized to fit
`(800, 600)` and re-encoded at quality 80, with no further budget check. -/
def optimize_image_for_api (enc : Nat × Nat → Nat → List UInt8) (dims : Nat × Nat)
    (budget : Nat) : List UInt8 :=
  match optimizeLoop (enc dims) budget 95 with
  | some bs => bs
  | none => enc (resizeDims dims (800, 600)) 80

/-- Python's `str.strip()`: drop whitespace from both ends (over the
character list of the string). -/
def pyStrip (s : String) : String :=
  ⟨(((s.data.dropWhile Char.isWhitespace).reverse.dropWhile Char.isWhitespace).reverse)⟩

/-- Split a character list at every occurrence of a separator character,
with Python `str.split(sep)` semantics (empty pieces are kept). -/
def splitOnChar (sep : Char) : List Char → List (List Char)
  | [] => [[]]
  | c :: cs =>
    match splitOnChar sep cs with
    | [] => [[]]
    | r :: rs => if c = sep then [] :: r :: rs else (c :: r) :: rs

/-- Python's `str.split('\n')`. -/
def pySplitLines (s : String) : List String :=
  (splitOnChar '\n' s.data).map (fun l => ⟨l⟩)

/-- The four style-specific prompts of `GeminiService.generate_caption`
(`gemini_service.py` lines 49–69), keyed by style name. -/
def style_prompts : List (String × String) :=
  [("descriptive",
    "Provide a detailed, descriptive caption for this image. Include information about objects, people, setting, colors, composition, and mood. Be specific and informative."),
   ("creative",
    "Create an imaginative and creative caption for this image. Use vivid language, metaphors, and storytelling elements. Make it engaging and artistic."),
   ("technical",
    "Provide a technical analysis of this image. Include details about composition, lighting, photography techniques, visual elements, and technical aspects."),
   ("simple",
    "Provide a simple, clear caption for this image in one or two sentences. Focus on the main subject and key elements.")]

/-- `style_prompts.get(style, style_prompts["descriptive"])`
(`gemini_service.py` line 71): the template keyed by the style, falling
back to the descriptive template for unknown styles. -/
def stylePrompt (style : String) : String :=
  ((style_prompts.lookup style).getD
    "Provide a detailed, descriptive caption for this image. Include information about objects, people, setting, colors, composition, and mood. Be specific and informative.")

/-- Embedding of `GeminiService.generate_caption` (`gemini_service.py`
lines 25–103). `transport` is the Gemini call: it receives the prompt text
sent in the request body and yields either the response text (`.ok`,
possibly empty) or a raised error (`.error`). The first component is the
result delivered to the caller (`.error` models a raised exception, as the
Python code re-raises every failure); the second component records the
prompt that was sent. -/
def generate_caption (transport : String → Except String String) (style : String) :
    Except String String × String :=
  let prompt := stylePrompt style
  (match transport prompt with
   | .ok t =>
     if t ≠ "" then .ok (pyStrip t)
     else .error "Failed to generate caption: No response text from Gemini API"
   | .error e => .error ("Failed to generate caption: " ++ e),
   prompt)

/-- The result dictionary of `GeminiService.analyze_image_content`. -/
structure AnalysisResult where
  analysis : String
  success : Bool
deriving DecidableEq

/-- Embedding of `GeminiService.analyze_image_content` (`gemini_service.py`
lines 105–143). `resp` is the upstream outcome: `.ok t` when accessing
`response.text` yields the string `t` (possibly empty), `.error e` when
anything in the body raises. Empty text is replaced by the placeholder
`"No analysis available"` with `success = True`; a raised error is caught
and reported with `success = False`. -/
def analyze_image_content (resp : Except String String) : AnalysisResult :=
  match resp with
  | .ok t => { analysis := if t ≠ "" then t else "No analysis available", success := true }
  | .error e => { analysis := "Analysis failed: " ++ e, success := false }

/-- A chat history entry (`{"role": ..., "content": ...}`). -/
structure ChatMsg where
  role : String
  content : String
deriving DecidableEq

/-- Python's `list[-n:]`: the last `n` elements of a list. -/
def lastN (n : Nat) (l : List α) : List α := l.drop (l.length - n)

/-- The history slice serialized by `ChatbotService.chat_with_image`
(`chatbot_service.py` line 52): `chat_history[-5:]`, the most recent five
entries of the history it is given. -/
def contextMessages (chatHistory : List ChatMsg) : List ChatMsg :=
  lastN 5 chatHistory

/-- The `conversation_context` string built by `chat_with_image`
(`chatbot_service.py` lines 50–54). -/
def conversation_context (chatHistory : List ChatMsg) : String :=
  (contextMessages chatHistory).foldl
    (fun acc m =>
      acc ++ (if m.role = "user" then "User" else "Assistant") ++ ": " ++ m.content ++ "\n")
    ""

/-- The full prompt of `chat_with_image` (`chatbot_service.py` lines 57–64):
system preamble, serialized context, then the current question once. -/
def chatFullPrompt (chatHistory : List ChatMsg) (userMessage : String) : String :=
  "You are a helpful AI assistant that can see and understand images. \nProvide detailed, accurate, and conversational responses about what you see. \nBe friendly and engaging while maintaining accuracy.\n\nPrevious conversation:\n"
    ++ conversation_context chatHistory
    ++ "\n\nCurrent question: " ++ userMessage

/-- The chat send handler of `src/app.py` (lines 727–768), general-chat
path: the user message is appended to the session history, the service is
called with `chat_history[:-1]` (the history without the in-flight
message), and the assistant reply is appended afterwards. `respond` is the
model call, mapping the context slice and the question to the reply text.
Returns the context slice the service serialized, the prompt it sent, and
the session history after the turn. -/
def chatSendHandler (history : List ChatMsg) (question : String)
    (respond : List ChatMsg → String → String) :
    List ChatMsg × String × List ChatMsg :=
  let h1 := history ++ [{ role := "user", content := question }]
  let priorHistory := h1.dropLast
  let reply := respond (contextMessages priorHistory) question
  (contextMessages priorHistory,
   chatFullPrompt priorHistory question,
   h1 ++ [{ role := "assistant", content := reply }])

/-- Character-list prefix test underlying the substring check. -/
def charPrefix : List Char → List Char → Bool
  | [], _ => true
  | _ :: _, [] => false
  | c :: cs, d :: ds => c == d && charPrefix cs ds

/-- Substring occurrence over character lists. -/
def charSub (needle : List Char) : List Char → Bool
  | [] => charPrefix needle []
  | d :: ds => charPrefix needle (d :: ds) || charSub needle ds

/-- Python's `needle in hay` on strings: substring containment. -/
def pyIn (needle hay : String) : Bool := charSub needle.toList hay.toList

/-- Python's `str.lower()` (ASCII case folding suffices for the keywords). -/
def pyLower (s : String) : String := ⟨s.data.map Char.toLower⟩

/-- The location keyword set of the chat send handler (`app.py` line 739). -/
def location_keywords : List String :=
  ["where", "location", "place", "address", "city", "country", "landmark", "building", "street"]

/-- The product keyword set of the chat send handler (`app.py` line 740). -/
def product_keywords : List String :=
  ["product", "brand", "price", "buy", "purchase", "model", "specification", "what is this", "identify"]

/-- Which specialized analysis a chat turn is dispatched to. -/
inductive ChatRoute where
  | location
  | product
  | generalImage
  | generalText
deriving DecidableEq

/-- Embedding of the routing of the chat send handler (`app.py`
lines 734–762): with an uploaded image, the lowercased question is matched
against the location keywords first, then the product keywords, falling
through to general chat with image; without an image every question goes
to general chat. -/
def routeQuestion (hasImage : Bool) (question : String) : ChatRoute :=
  if hasImage then
    let ql := pyLower question
    if location_keywords.any (fun kw => pyIn kw ql) then .location
    else if product_keywords.any (fun kw => pyIn kw ql) then .product
    else .generalImage
  else .generalText

/-- Embedding of `AudioService.text_to_speech` (`audio_service.py`
lines 43–146), observed as the pair (outcome, number of external TTS
calls). The guard `if not text or not text.strip()` raises before the
gTTS object is built, so a blank text performs zero external calls;
otherwise `tts` (the external gTTS engine, yielding the saved file path
on success) is invoked exactly once and a failure there is re-raised. -/
def text_to_speech (tts : String → Except String String) (text : String) :
    Except String String × Nat :=
  if text = "" || pyStrip text = "" then
    (.error "Failed to convert text to speech: Text cannot be empty", 0)
  else
    match tts text with
    | .ok path => (.ok path, 1)
    | .error e => (.error ("Failed to convert text to speech: " ++ e), 1)

/-- The fixed default question list of
`ChatbotService.get_suggested_questions` (`chatbot_service.py`
lines 166–171 and 175–180). -/
def default_suggested_questions : List String :=
  ["What do you see in this image?",
   "Can you identify the specific location?",
   "What products or brands can you identify?",
   "Can you read any text or signs in the image?"]

/-- Embedding of `ChatbotService.get_suggested_questions`
(`chatbot_service.py` lines 131–180). `resp` is the upstream outcome
(`.error` when anything in the body raises). Non-empty response text is
split on newlines, stripped, blank lines dropped, and truncated to four
entries; empty text and errors yield the default list. -/
def get_suggested_questions (resp : Except String String) : List String :=
  match resp with
  | .ok t =>
    if t ≠ "" then
      (((pySplitLines t).map pyStrip).filter (fun q => q ≠ "")).take 4
    else default_suggested_questions
  | .error _ => default_suggested_questions

/-- Counterexample to C1: when the upstream response text is present but
empty, `analyze_image_content` returns `success = True` (with the
placeholder text), not `success = False` as the claim states. -/
theorem c1_counterexample :
    (analyze_image_content (Except.ok "")).success = true ∧
    (analyze_image_content (Except.ok "")).analysis = "No analysis available" := by
  constructor <;> decide

/-- C1 (amended): when the upstream access to the response text raises
(missing response), `analyze_image_content` catches the exception and
returns `success = False` with the human-readable message
`"Analysis failed: ..."`; when the response text is present but empty it
returns `success = True` with the placeholder `"No analysis available"`;
`generate_caption`, by contrast, raises to its caller both on empty
response text and on an upstream error. -/
theorem c1_empty_and_missing_response_behavior (e : String) (style : String) :
    analyze_image_content (Except.error e)
      = { analysis := "Analysis failed: " ++ e, success := false } ∧
    analyze_image_content (Except.ok "")
      = { analysis := "No analysis available", success := true } ∧
    (generate_caption (fun _ => Except.ok "") style).1
      = Except.error "Failed to generate caption: No response text from Gemini API" ∧
    (generate_caption (fun _ => Except.error e) style).1
      = Except.error ("Failed to generate caption: " ++ e) := by
  refine ⟨rfl, by decide, ?_, rfl⟩
  simp [generate_caption]

/-- Counterexample to C2: the caption operation's style-to-template table
has exactly four entries, not five. -/
theorem c2_counterexample : style_prompts.length = 4 := by
  decide

/-- C2 (amended): the caption operation has four caption styles
(`descriptive`, `creative`, `technical`, `simple`); each of the four
selects a distinct instruction template keyed by that style, that template
is exactly the prompt text sent in the request body, and any unknown style
falls back to the descriptive template. -/
theorem c2_four_styles_distinct_templates :
    style_prompts.map Prod.fst = ["descriptive", "creative", "technical", "simple"] ∧
    List.Pairwise (fun p q => p ≠ q) (style_prompts.map Prod.snd) ∧
    (∀ s p, (s, p) ∈ style_prompts →
      (stylePrompt s = p ∧ ∀ transport, (generate_caption transport s).2 = p)) ∧
    (∀ s, style_prompts.lookup s = none →
      stylePrompt s
        = "Provide a detailed, descriptive caption for this image. Include information about objects, people, setting, colors, composition, and mood. Be specific and informative.") := by
  refine ⟨by decide, by decide, ?_, ?_⟩
  · intro s p h
    simp only [style_prompts, List.mem_cons, List.not_mem_nil, or_false] at h
    rcases h with h | h | h | h <;> cases h <;>
      exact ⟨rfl, fun _ => rfl⟩
  · intro s h
    simp [stylePrompt, h]

/-- Witness for C2's amended theorem at the `creative` style. -/
theorem c2_four_styles_distinct_templates_witness :
    ("creative",
      "Create an imaginative and creative caption for this image. Use vivid language, metaphors, and storytelling elements. Make it engaging and artistic.")
        ∈ style_prompts ∧
    stylePrompt "creative"
      = "Create an imaginative and creative caption for this image. Use vivid language, metaphors, and storytelling elements. Make it engaging and artistic." := by
  refine ⟨by decide, ?_⟩
  exact (c2_four_styles_distinct_templates.2.2.1 _ _ (by decide)).1

/-- C10: `get_suggested_questions` is total (every upstream outcome,
including a raised error, maps to a result), always returns at most four
questions, and returns the fixed four default questions on an upstream
error or on empty upstream response text. -/
theorem c10_suggested_questions_bounded (resp : Except String String) :
    (get_suggested_questions resp).length ≤ 4 ∧
    (∀ e, resp = Except.error e →
      get_suggested_questions resp = default_suggested_questions) ∧
    (resp = Except.ok "" →
      get_suggested_questions resp = default_suggested_questions) ∧
    default_suggested_questions.length = 4 := by
  refine ⟨?_, ?_, ?_, by decide⟩
  · cases resp with
    | error e =>
      have h : get_suggested_questions (Except.error e) = default_suggested_questions := rfl
      rw [h]; decide
    | ok t =>
      by_cases h : t = ""
      · subst h; decide
      · simp only [get_suggested_questions, if_pos h]
        exact List.length_take_le 4 _
  · rintro e rfl; rfl
  · rintro rfl; rfl

/-- Witness for C10 at an empty upstream response. -/
theorem c10_suggested_questions_bounded_witness :
    get_suggested_questions (Except.ok "") = default_suggested_questions :=
  (c10_suggested_questions_bounded (Except.ok "")).2.2.1 rfl

/-- C7: `validate_image` returns `False` whenever either dimension is below
10 px, or the pixel count exceeds 100,000,000, or the colour mode is not in
the supported list, or the pixel data fails to decode. -/
theorem c7_validate_rejects (image : PImage)
    (h : image.width < 10 ∨ image.height < 10 ∨
      100000000 < image.width * image.height ∨
      valid_modes.contains image.mode = false ∨
      image.loadOk = false) :
    validate_image (some image) = false := by
  rcases h with h | h | h | h | h
  · simp [validate_image, h]
  · simp [validate_image, h]
  · simp [validate_image, h]
  · have h' : ¬ (image.mode ∈ valid_modes) := by simpa using h
    simp [validate_image, h']
  · simp [validate_image, h]

/-- Witness for C7 at a 5×100 image (width below the 10 px minimum). -/
theorem c7_validate_rejects_witness :
    ((5 : Nat) < 10 ∨ (100 : Nat) < 10 ∨ 100000000 < 5 * 100 ∨
      valid_modes.contains "RGB" = false ∨ true = false) ∧
    validate_image (some { width := 5, height := 100, mode := "RGB", loadOk := true })
      = false :=
  ⟨Or.inl (by decide), c7_validate_rejects _ (Or.inl (by decide))⟩

/-- C8: on empty or whitespace-only text, `text_to_speech` raises the
"Text cannot be empty" error before the gTTS engine is ever invoked — the
external-call count of the run is zero. -/
theorem c8_tts_rejects_blank (tts : String → Except String String) (text : String)
    (h : pyStrip text = "") :
    (text_to_speech tts text).2 = 0 ∧
    (text_to_speech tts text).1
      = Except.error "Failed to convert text to speech: Text cannot be empty" := by
  simp [text_to_speech, h]

/-- Witness for C8 at the whitespace-only text `"   "`. -/
theorem c8_tts_rejects_blank_witness :
    pyStrip "   " = "" ∧
    (text_to_speech (fun s => Except.ok s) "   ").2 = 0 ∧
    (text_to_speech (fun s => Except.ok s) "   ").1
      = Except.error "Failed to convert text to speech: Text cannot be empty" :=
  ⟨by decide, c8_tts_rejects_blank _ _ (by decide)⟩

/-- C5: chat routing checks the location keyword set first — any question
containing a location keyword goes to the location-specialized analysis
even if it also contains product keywords; questions matching only product
keywords go to the product analysis; everything else goes to general chat
(with image when one is uploaded, without otherwise). -/
theorem c5_routing_precedence (question : String) :
    (location_keywords.any (fun kw => pyIn kw (pyLower question)) = true →
      routeQuestion true question = ChatRoute.location) ∧
    (location_keywords.any (fun kw => pyIn kw (pyLower question)) = false →
      product_keywords.any (fun kw => pyIn kw (pyLower question)) = true →
      routeQuestion true question = ChatRoute.product) ∧
    (location_keywords.any (fun kw => pyIn kw (pyLower question)) = false →
      product_keywords.any (fun kw => pyIn kw (pyLower question)) = false →
      routeQuestion true question = ChatRoute.generalImage) ∧
    routeQuestion false question = ChatRoute.generalText := by
  refine ⟨fun h => ?_, fun h1 h2 => ?_, fun h1 h2 => ?_, rfl⟩
  · simp [routeQuestion, h]
  · simp [routeQuestion, h1, h2]
  · simp [routeQuestion, h1, h2]

/-- Witness for C5: "Where can I buy this?" contains the location keyword
`where` and the product keyword `buy`, and is routed to the location
analysis. -/
theorem c5_routing_precedence_witness :
    location_keywords.any (fun kw => pyIn kw (pyLower "Where can I buy this?")) = true ∧
    product_keywords.any (fun kw => pyIn kw (pyLower "Where can I buy this?")) = true ∧
    routeQuestion true "Where can I buy this?" = ChatRoute.location :=
  ⟨by decide, by decide, (c5_routing_precedence _).1 (by decide)⟩

/-- Every colour mode is normalised to `RGB` by `resize_image`'s
conversion step. -/
theorem applyModeConversion_rgb (mode : String) : applyModeConversion mode = "RGB" := by
  unfold applyModeConversion modeConversion
  split_ifs with h1 h2
  · rfl
  · rfl
  · push_neg at h2
    exact h2

/-- Neither output dimension of `resizeDims` exceeds its bound. -/
theorem resizeDims_le (dims maxSize : Nat × Nat) :
    (resizeDims dims maxSize).1 ≤ maxSize.1 ∧ (resizeDims dims maxSize).2 ≤ maxSize.2 := by
  by_cases hsf : scale_factor dims maxSize < 1
  · simp only [resizeDims, if_pos hsf]
    constructor
    · have h1 : scale_factor dims maxSize ≤ (maxSize.1 : ℚ) / (dims.1 : ℚ) :=
        le_trans (min_le_left _ _) (min_le_left _ _)
      have hle : (dims.1 : ℚ) * scale_factor dims maxSize ≤ (maxSize.1 : ℚ) := by
        calc (dims.1 : ℚ) * scale_factor dims maxSize
            ≤ (dims.1 : ℚ) * ((maxSize.1 : ℚ) / (dims.1 : ℚ)) :=
              mul_le_mul_of_nonneg_left h1 (Nat.cast_nonneg _)
          _ ≤ (maxSize.1 : ℚ) := by
              rcases Nat.eq_zero_or_pos dims.1 with h | h
              · simp [h]
              · rw [← mul_div_assoc,
                  mul_div_cancel_left₀ _ (by exact_mod_cast h.ne' : (dims.1 : ℚ) ≠ 0)]
      calc ⌊(dims.1 : ℚ) * scale_factor dims maxSize⌋₊
          ≤ ⌊(maxSize.1 : ℚ)⌋₊ := Nat.floor_le_floor hle
        _ = maxSize.1 := Nat.floor_natCast _
    · have h1 : scale_factor dims maxSize ≤ (maxSize.2 : ℚ) / (dims.2 : ℚ) :=
        le_trans (min_le_left _ _) (min_le_right _ _)
      have hle : (dims.2 : ℚ) * scale_factor dims maxSize ≤ (maxSize.2 : ℚ) := by
        calc (dims.2 : ℚ) * scale_factor dims maxSize
            ≤ (dims.2 : ℚ) * ((maxSize.2 : ℚ) / (dims.2 : ℚ)) :=
              mul_le_mul_of_nonneg_left h1 (Nat.cast_nonneg _)
          _ ≤ (maxSize.2 : ℚ) := by
              rcases Nat.eq_zero_or_pos dims.2 with h | h
              · simp [h]
              · rw [← mul_div_assoc,
                  mul_div_cancel_left₀ _ (by exact_mod_cast h.ne' : (dims.2 : ℚ) ≠ 0)]
      calc ⌊(dims.2 : ℚ) * scale_factor dims maxSize⌋₊
          ≤ ⌊(maxSize.2 : ℚ)⌋₊ := Nat.floor_le_floor hle
        _ = maxSize.2 := Nat.floor_natCast _
  · simp only [resizeDims, if_neg hsf]
    have hsf' : (1 : ℚ) ≤ scale_factor dims maxSize := not_lt.mp hsf
    constructor
    · have h1 : (1 : ℚ) ≤ (maxSize.1 : ℚ) / (dims.1 : ℚ) :=
        le_trans hsf' (le_trans (min_le_left _ _) (min_le_left _ _))
      rcases Nat.eq_zero_or_pos dims.1 with h | h
      · rw [h] at h1; norm_num at h1
      · have := (one_le_div (by exact_mod_cast h : (0 : ℚ) < (dims.1 : ℚ))).mp h1
        exact_mod_cast this
    · have h1 : (1 : ℚ) ≤ (maxSize.2 : ℚ) / (dims.2 : ℚ) :=
        le_trans hsf' (le_trans (min_le_left _ _) (min_le_right _ _))
      rcases Nat.eq_zero_or_pos dims.2 with h | h
      · rw [h] at h1; norm_num at h1
      · have := (one_le_div (by exact_mod_cast h : (0 : ℚ) < (dims.2 : ℚ))).mp h1
        exact_mod_cast this

/-- An image already within bounds is passed through with its dimensions
unchanged. -/
theorem resizeDims_eq_self (dims maxSize : Nat × Nat)
    (hw : 0 < dims.1) (hh : 0 < dims.2)
    (h1 : dims.1 ≤ maxSize.1) (h2 : dims.2 ≤ maxSize.2) :
    resizeDims dims maxSize = dims := by
  have ha : (1 : ℚ) ≤ (maxSize.1 : ℚ) / (dims.1 : ℚ) :=
    (one_le_div (by exact_mod_cast hw : (0 : ℚ) < (dims.1 : ℚ))).mpr (by exact_mod_cast h1)
  have hb : (1 : ℚ) ≤ (maxSize.2 : ℚ) / (dims.2 : ℚ) :=
    (one_le_div (by exact_mod_cast hh : (0 : ℚ) < (dims.2 : ℚ))).mpr (by exact_mod_cast h2)
  have hsf : ¬ scale_factor dims maxSize < 1 := by
    rw [not_lt]
    exact le_min (le_min ha hb) le_rfl
  simp [resizeDims, hsf]

/-- C6: `resize_image` never returns an image exceeding either bound, the
scale factor never exceeds 1.0, and an image already within bounds keeps
its dimensions (no upscaling). -/
theorem c6_resize_bounds_no_upscale (image : PImage) (maxSize : Nat × Nat)
    (hw : 0 < image.width) (hh : 0 < image.height) :
    (resize_image image maxSize).width ≤ maxSize.1 ∧
    (resize_image image maxSize).height ≤ maxSize.2 ∧
    scale_factor (image.width, image.height) maxSize ≤ 1 ∧
    (image.width ≤ maxSize.1 → image.height ≤ maxSize.2 →
      ((resize_image image maxSize).width = image.width ∧
       (resize_image image maxSize).height = image.height)) := by
  refine ⟨?_, ?_, min_le_right _ _, ?_⟩
  · simpa [resize_image] using (resizeDims_le (image.width, image.height) maxSize).1
  · simpa [resize_image] using (resizeDims_le (image.width, image.height) maxSize).2
  · intro h1 h2
    have h := resizeDims_eq_self (image.width, image.height) maxSize hw hh h1 h2
    constructor <;> simp [resize_image, h]

/-- Witness for C6 at a 20×10 image inside a 1024×1024 bound. -/
theorem c6_resize_bounds_no_upscale_witness :
    (0 : Nat) < 20 ∧ (0 : Nat) < 10 ∧
    ((resize_image { width := 20, height := 10, mode := "RGB", loadOk := true }
        (1024, 1024)).width ≤ 1024 ∧
     (resize_image { width := 20, height := 10, mode := "RGB", loadOk := true }
        (1024, 1024)).height ≤ 1024 ∧
     scale_factor (20, 10) (1024, 1024) ≤ 1 ∧
     ((20 : Nat) ≤ 1024 → (10 : Nat) ≤ 1024 →
       ((resize_image { width := 20, height := 10, mode := "RGB", loadOk := true }
           (1024, 1024)).width = 20 ∧
        (resize_image { width := 20, height := 10, mode := "RGB", loadOk := true }
           (1024, 1024)).height = 10))) :=
  ⟨by decide, by decide,
   c6_resize_bounds_no_upscale
     { width := 20, height := 10, mode := "RGB", loadOk := true }
     (1024, 1024) (by decide) (by decide)⟩

/-- C9: on its non-error path `resize_image` always returns an `RGB`-mode
image — `RGBA` and palette (`P`) inputs go through the white-background
compositing branch, any other non-`RGB` mode goes through `convert('RGB')`
— and the conversion also happens when the image is already within bounds
and no downscaling occurs. -/
theorem c9_resize_mode_rgb (image : PImage) (maxSize : Nat × Nat) :
    (resize_image image maxSize).mode = "RGB" ∧
    ((image.mode = "RGBA" ∨ image.mode = "P") →
      modeConversion image.mode = ModeConv.whiteBackground) ∧
    (image.mode ≠ "RGBA" → image.mode ≠ "P" → image.mode ≠ "RGB" →
      modeConversion image.mode = ModeConv.convertRGB) ∧
    (image.width ≤ maxSize.1 → image.height ≤ maxSize.2 →
      0 < image.width → 0 < image.height →
      resize_image image maxSize
        = { width := image.width, height := image.height, mode := "RGB",
            loadOk := image.loadOk }) := by
  refine ⟨?_, ?_, ?_, ?_⟩
  · simp [resize_image, applyModeConversion_rgb]
  · rintro (h | h) <;> simp [modeConversion, h]
  · intro h1 h2 h3
    simp [modeConversion, h1, h2, h3]
  · intro h1 h2 hw hh
    have h := resizeDims_eq_self (image.width, image.height) maxSize hw hh h1 h2
    simp [resize_image, h, applyModeConversion_rgb]

/-- Witness for C9 at a 100×50 `RGBA` image inside an 800×600 bound: the
dimensions are untouched but the mode still becomes `RGB`. -/
theorem c9_resize_mode_rgb_witness :
    ("RGBA" = "RGBA" ∨ "RGBA" = "P") ∧
    modeConversion "RGBA" = ModeConv.whiteBackground ∧
    ((100 : Nat) ≤ 800 ∧ (50 : Nat) ≤ 600 ∧ (0 : Nat) < 100 ∧ (0 : Nat) < 50) ∧
    resize_image { width := 100, height := 50, mode := "RGBA", loadOk := true } (800, 600)
      = { width := 100, height := 50, mode := "RGB", loadOk := true } :=
  ⟨Or.inl rfl,
   (c9_resize_mode_rgb { width := 100, height := 50, mode := "RGBA", loadOk := true }
     (800, 600)).2.1 (Or.inl rfl),
   ⟨by decide, by decide, by decide, by decide⟩,
   (c9_resize_mode_rgb { width := 100, height := 50, mode := "RGBA", loadOk := true }
     (800, 600)).2.2.2 (by decide) (by decide) (by decide) (by decide)⟩

/-- C3: in a chat turn, the context handed to the model is exactly the
most recent five entries of the history from before this turn — so it
contains at most the configured window (five, in particular at most ten)
of prior messages and never the in-flight message — and after the
response is obtained the session history has gained exactly the user
message and the assistant reply, in that order. -/
theorem c3_chat_context_window (history : List ChatMsg) (question : String)
    (respond : List ChatMsg → String → String) :
    (chatSendHandler history question respond).1 = contextMessages history ∧
    (chatSendHandler history question respond).1.length ≤ 5 ∧
    (chatSendHandler history question respond).1.length ≤ 10 ∧
    (chatSendHandler history question respond).2.1 = chatFullPrompt history question ∧
    (chatSendHandler history question respond).2.2
      = history ++
        [{ role := "user", content := question },
         { role := "assistant", content := respond (contextMessages history) question }] := by
  have hdrop :
      (history ++ [({ role := "user", content := question } : ChatMsg)]).dropLast
        = history := by
    simp
  have hlen : (contextMessages history).length ≤ 5 := by
    simp only [contextMessages, lastN, List.length_drop]
    omega
  refine ⟨?_, ?_, ?_, ?_, ?_⟩
  · simp [chatSendHandler, hdrop]
  · simpa [chatSendHandler, hdrop] using hlen
  · simp only [chatSendHandler, hdrop]
    omega
  · simp [chatSendHandler, hdrop]
  · simp [chatSendHandler, hdrop]

/-- The quality ladder of the loop: 95 down to 25 in steps of 10, never
at or below the floor that stops the loop. -/
theorem qualitySteps_95 : qualitySteps 95 = [95, 85, 75, 65, 55, 45, 35, 25] := by
  simp [qualitySteps]

/-- The encoding loop returns the encoding at the first quality of the
ladder whose encoded size fits the budget. -/
theorem optimizeLoop_eq_find (enc : Nat → List UInt8) (budget : Nat) (q : Nat) :
    optimizeLoop enc budget q
      = ((qualitySteps q).find? (fun x => (enc x).length ≤ budget)).map (fun x => enc x) := by
  induction q using Nat.strong_induction_on with
  | _ q ih =>
    rw [optimizeLoop, qualitySteps]
    by_cases h : 20 ≤ q
    · rw [if_pos h, if_pos h]
      by_cases hf : (enc q).length ≤ budget
      · simp [hf]
      · simp [hf, ih (q - 10) (by omega)]
    · rw [if_neg h, if_neg h]
      simp

/-- When some quality on the ladder fits, `optimize_image_for_api` returns
the encoding at the first such quality. -/
theorem optimize_image_for_api_find_some (enc : Nat × Nat → Nat → List UInt8)
    (dims : Nat × Nat) (budget : Nat) (q0 : Nat)
    (h : (qualitySteps 95).find? (fun q => (enc dims q).length ≤ budget) = some q0) :
    optimize_image_for_api enc dims budget = enc dims q0 := by
  simp only [optimize_image_for_api, optimizeLoop_eq_find, h, Option.map_some']

/-- When no quality on the ladder fits, `optimize_image_for_api` returns
the fallback encoding: the image resized to fit (800, 600), at quality 80. -/
theorem optimize_image_for_api_find_none (enc : Nat × Nat → Nat → List UInt8)
    (dims : Nat × Nat) (budget : Nat)
    (h : (qualitySteps 95).find? (fun q => (enc dims q).length ≤ budget) = none) :
    optimize_image_for_api enc dims budget = enc (resizeDims dims (800, 600)) 80 := by
  simp only [optimize_image_for_api, optimizeLoop_eq_find, h, Option.map_none']

/-- C4: the optimisation loop starts at quality 95 and steps down by 10
while the quality stays above the floor of 20 (ladder 95…25); it returns
the encoding of the first quality whose size fits the budget, so whenever
quality-only reduction can reach the budget the returned bytes fit it; when
no quality fits it returns the re-encoding of the image resized to fit
(800, 600) at fixed quality 80 with no further budget check, and (for an
encoder that never returns empty output) the result is never empty. -/
theorem c4_optimize_for_transfer (enc : Nat × Nat → Nat → List UInt8)
    (dims : Nat × Nat) (budget : Nat) :
    qualitySteps 95 = [95, 85, 75, 65, 55, 45, 35, 25] ∧
    (∀ q0, (qualitySteps 95).find? (fun q => (enc dims q).length ≤ budget) = some q0 →
      optimize_image_for_api enc dims budget = enc dims q0) ∧
    ((∃ q ∈ qualitySteps 95, (enc dims q).length ≤ budget) →
      (optimize_image_for_api enc dims budget).length ≤ budget) ∧
    ((∀ q ∈ qualitySteps 95, budget < (enc dims q).length) →
      optimize_image_for_api enc dims budget = enc (resizeDims dims (800, 600)) 80) ∧
    ((∀ d q, enc d q ≠ []) → optimize_image_for_api enc dims budget ≠ []) := by
  refine ⟨qualitySteps_95, ?_, ?_, ?_, ?_⟩
  · intro q0 h
    exact optimize_image_for_api_find_some enc dims budget q0 h
  · rintro ⟨q, hq, hle⟩
    have hsome : ((qualitySteps 95).find? (fun x => (enc dims x).length ≤ budget)).isSome := by
      rw [List.find?_isSome]
      exact ⟨q, hq, by simpa using hle⟩
    obtain ⟨q0, hq0⟩ := Option.isSome_iff_exists.mp hsome
    have hp : (enc dims q0).length ≤ budget := by
      simpa using List.find?_some hq0
    rw [optimize_image_for_api_find_some enc dims budget q0 hq0]
    exact hp
  · intro hall
    apply optimize_image_for_api_find_none
    rw [List.find?_eq_none]
    intro x hx
    simpa using not_le.mpr (hall x hx)
  · intro hne
    rcases hfind : (qualitySteps 95).find? (fun q => (enc dims q).length ≤ budget) with _ | q0
    · rw [optimize_image_for_api_find_none enc dims budget hfind]
      exact hne _ _
    · rw [optimize_image_for_api_find_some enc dims budget q0 hfind]
      exact hne _ _

/-- Witness for C4: an encoder whose output at quality `q` has `q` bytes,
with a 30-byte budget — quality 25 on the ladder fits, and the returned
bytes fit the budget. -/
theorem c4_optimize_for_transfer_witness :
    (∃ q ∈ qualitySteps 95,
      ((fun (_ : Nat × Nat) (q : Nat) => List.replicate q (0 : UInt8)) (1024, 768) q).length
        ≤ 30) ∧
    (optimize_image_for_api (fun _ q => List.replicate q (0 : UInt8)) (1024, 768) 30).length
      ≤ 30 :=
  ⟨⟨25, by rw [qualitySteps_95]; decide, by simp⟩,
   (c4_optimize_for_transfer (fun _ q => List.replicate q (0 : UInt8)) (1024, 768) 30).2.2.1
     ⟨25, by rw [qualitySteps_95]; decide, by simp⟩⟩
